import Mathlib

/-!
A shallow embedding of the Adyen API Go client (`adyen.go`) and proofs of
specification properties about it.

Go errors are embedded as `String` values and fallible Go calls as
`Except GoError`.  External effects (`json.Marshal`, `http.NewRequest`
failure, the HTTP transport `client.Do`, reading the response body, and
`query.Values` of the go-querystring library) are passed in as oracle
parameters, so the embedded `execute`/`executeHpp` describe exactly the
control flow of the source for every possible outcome of those effects.
-/

/-- Go `error` values, embedded as their message. -/
abbrev GoError := String

/-- Modelled from the spec: the `environment` selector (test vs live base
URLs) is not under src/; the spec describes it only as providing the base
URLs for the backend API, the client-encryption script and the HPP API, so
it is embedded as those three URL-building functions. -/
structure environment where
  baseURL : String → String → String
  clientURL : String → String
  hppURL : String → String

/-- Modelled from the spec: the credentials type is not under src/; the spec
says credentials hold username, password, an optional HMAC signing key and
the environment, immutable after construction. -/
structure apiCredentials where
  Env : environment
  Username : String
  Password : String
  Hmac : Option String

/-- Modelled from the spec: constructor for basic-auth credentials (no HMAC
key), used by `New` in src/adyen.go. -/
def newCredentials (env : environment) (username password : String) : apiCredentials :=
  { Env := env, Username := username, Password := password, Hmac := none }

/-- Modelled from the spec: constructor for HPP credentials carrying the
HMAC signing key, used by `NewWithHMAC` in src/adyen.go. -/
def newCredentialsWithHMAC (env : environment) (username password hmac : String) : apiCredentials :=
  { Env := env, Username := username, Password := password, Hmac := some hmac }

/-- `DefaultCurrency` — default currency for transactions (src/adyen.go). -/
def DefaultCurrency : String := "EUR"

/-- `APIVersion` — version of the current Adyen API (src/adyen.go). -/
def APIVersion : String := "v25"

/-- `PaymentService` endpoint service name (src/adyen.go). -/
def PaymentService : String := "Payment"

/-- `RecurringService` endpoint service name (src/adyen.go). -/
def RecurringService : String := "Recurring"

/-- `Adyen` — base structure with configuration options (src/adyen.go).
The Go `Logger` field is a nilable pointer whose only observable use inside
src/ is a nil check before printing, so it is embedded as an `Option`
presence flag. -/
structure Adyen where
  Credentials : apiCredentials
  Currency : String
  MerchantAccount : String
  Logger : Option Unit

/-- `New` — creates an Adyen instance (src/adyen.go).  Go zero-initialises
the fields the composite literal omits. -/
def New (env : environment) (username password : String) : Adyen :=
  { Credentials := newCredentials env username password
    Currency := DefaultCurrency
    MerchantAccount := ""
    Logger := none }

/-- `NewWithHMAC` — creates an Adyen instance with HPP credentials
(src/adyen.go). -/
def NewWithHMAC (env : environment) (username password hmac : String) : Adyen :=
  { Credentials := newCredentialsWithHMAC env username password hmac
    Currency := DefaultCurrency
    MerchantAccount := ""
    Logger := none }

/-- `ClientURL` (src/adyen.go). -/
def Adyen.ClientURL (a : Adyen) (clientID : String) : String :=
  a.Credentials.Env.clientURL clientID

/-- `adyenURL` returns the Adyen backend URL (src/adyen.go). -/
def Adyen.adyenURL (a : Adyen) (service requestType : String) : String :=
  a.Credentials.Env.baseURL service APIVersion ++ "/" ++ requestType ++ "/"

/-- `createHPPUrl` returns the Adyen HPP URL (src/adyen.go). -/
def Adyen.createHPPUrl (a : Adyen) (requestType : String) : String :=
  a.Credentials.Env.hppURL requestType

/-- `AttachLogger` (src/adyen.go); the Go method mutates the receiver, so it
is embedded as a function returning the updated client. -/
def Adyen.AttachLogger (a : Adyen) (logger : Option Unit) : Adyen :=
  { a with Logger := logger }

/-- `GetCurrency` (src/adyen.go). -/
def Adyen.GetCurrency (a : Adyen) : String :=
  a.Currency

/-- `SetCurrency` (src/adyen.go), embedded as a state update. -/
def Adyen.SetCurrency (a : Adyen) (currency : String) : Adyen :=
  { a with Currency := currency }

/-- `GetMerchantAccount` (src/adyen.go). -/
def Adyen.GetMerchantAccount (a : Adyen) : String :=
  a.MerchantAccount

/-- `SetMerchantAccount` (src/adyen.go), embedded as a state update. -/
def Adyen.SetMerchantAccount (a : Adyen) (account : String) : Adyen :=
  { a with MerchantAccount := account }

/-- An outgoing HTTP request as built by src/adyen.go: method, URL, optional
body, the one Content-Type header the code ever sets, and the optional
basic-auth credentials set by `req.SetBasicAuth`. -/
structure HttpRequest where
  Method : String
  URL : String
  Body : Option String
  ContentType : Option String
  BasicAuth : Option (String × String)

/-- A flattened rendering of a request, used to observe through the
transport oracle exactly which request was handed to `client.Do`. -/
def HttpRequest.describe (r : HttpRequest) : String :=
  r.Method ++ " " ++ r.URL
    ++ " body:" ++ (match r.Body with | none => "<nil>" | some b => b)
    ++ " ctype:" ++ (match r.ContentType with | none => "<nil>" | some c => c)
    ++ " auth:" ++ (match r.BasicAuth with | none => "<nil>" | some p => p.1 ++ ":" ++ p.2)

/-- The outcome of a successful `client.Do`: the response status code and
the result of reading the response body stream (which may itself fail). -/
structure HttpResult where
  StatusCode : Nat
  BodyRead : Except GoError String

/-- `Response` — the response envelope.  Modelled from the spec for the
fields beyond what src/adyen.go constructs: it wraps the raw status code
and the body bytes read from the response. -/
structure Response where
  StatusCode : Nat
  Body : String

/-- Modelled from the spec: `handleHTTPError` is not under src/; the spec
says response error classification flags non-2xx HTTP statuses as
failures, so it returns an error exactly when the status is outside
[200, 300). -/
def Response.handleHTTPError (r : Response) : Option GoError :=
  if r.StatusCode < 200 ∨ 300 ≤ r.StatusCode then
    some ("HTTP Response Error - " ++ toString r.StatusCode)
  else
    none

/-- The POST request that `execute` builds (src/adyen.go lines 136-147):
`http.NewRequest("POST", url, body)` followed by the Content-Type header
and `SetBasicAuth` with the stored credentials. -/
def Adyen.executeRequest (a : Adyen) (service method : String) (body : String) : HttpRequest :=
  { Method := "POST"
    URL := a.adyenURL service method
    Body := some body
    ContentType := some "application/json"
    BasicAuth := some (a.Credentials.Username, a.Credentials.Password) }

/-- `execute` (src/adyen.go): marshal the entity, build the authenticated
POST request, send it, read the body, classify the HTTP status.  `marshal`
is the outcome of `json.Marshal(requestEntity)`, `newRequestErr` the error
outcome of `http.NewRequest`, and `transport` the oracle for `client.Do`
together with reading `resp.Body`.  The deferred `Body.Close` assigns only
a local variable in the Go source and cannot change the returned values,
so it is not modelled. -/
def Adyen.execute (a : Adyen) (service method : String)
    (marshal : Except GoError String)
    (newRequestErr : Option GoError)
    (transport : HttpRequest → Except GoError HttpResult) : Except GoError Response :=
  match marshal with
  | .error e => .error e
  | .ok body =>
    match newRequestErr with
    | some e => .error e
    | none =>
      match transport (a.executeRequest service method body) with
      | .error e => .error e
      | .ok res =>
        match res.BodyRead with
        | .error e => .error e
        | .ok buf =>
          let providerResponse : Response := { StatusCode := res.StatusCode, Body := buf }
          match providerResponse.handleHTTPError with
          | some e => .error e
          | none => .ok providerResponse

/-- The `url.Values` returned by `query.Values` of go-querystring: either
the nil map the library returns when it rejects the entity, or a list of
key/value pairs. -/
abbrev UrlValues := Option (List (String × String))

/-- Modelled from the spec: `v.Encode()` of the external net/url package —
URL-encoded query parameters; the nil values map encodes to the empty
string. -/
def UrlValues.encode : UrlValues → String
  | none => ""
  | some kvs => String.intercalate "&" (kvs.map (fun p => p.1 ++ "=" ++ p.2))

/-- The GET request that `executeHpp` builds (src/adyen.go lines 189-194):
the HPP URL with the encoded query string appended after "?", no body, no
headers and no authentication. -/
def Adyen.hppRequest (a : Adyen) (method : String) (v : UrlValues) : HttpRequest :=
  { Method := "GET"
    URL := a.createHPPUrl method ++ "?" ++ v.encode
    Body := none
    ContentType := none
    BasicAuth := none }

/-- `executeHpp` (src/adyen.go): build the HPP GET URL from the query
values (`queryValues` is the pair returned by `query.Values(requestEntity)`;
its error component is discarded by `v, _ :=` in the source), send the
request, read the body and return the wrapped response.  No HTTP status
classification is performed on this path. -/
def Adyen.executeHpp (a : Adyen) (method : String)
    (queryValues : UrlValues × Option GoError)
    (newRequestErr : Option GoError)
    (transport : HttpRequest → Except GoError HttpResult) : Except GoError Response :=
  match newRequestErr with
  | some e => .error e
  | none =>
    match transport (a.hppRequest method queryValues.1) with
    | .error e => .error e
    | .ok res =>
      match res.BodyRead with
      | .error e => .error e
      | .ok buf => .ok { StatusCode := res.StatusCode, Body := buf }

/-- A concrete test environment for witnesses and counterexamples. -/
def testEnv : environment :=
  { baseURL := fun service version => "https://pal-test.adyen.com/pal/servlet/" ++ service ++ "/" ++ version
    clientURL := fun clientID => "https://test.adyen.com/hpp/cse/js/" ++ clientID ++ ".shtml"
    hppURL := fun requestType => "https://test.adyen.com/hpp/" ++ requestType ++ ".shtml" }

/-- A concrete client for witnesses and counterexamples. -/
def testAdyen : Adyen := New testEnv "user" "pass"

/-- Claim C3: for every string c and every string m, `SetCurrency c`
followed by `GetCurrency` returns c, and `SetMerchantAccount m` followed by
`GetMerchantAccount` returns m — the currency and merchant-account options
round-trip into the client state. -/
theorem setGet_roundtrip (a : Adyen) (c m : String) :
    (a.SetCurrency c).GetCurrency = c ∧ (a.SetMerchantAccount m).GetMerchantAccount = m :=
  ⟨rfl, rfl⟩

/-- Claim C5: `New` stores the given environment, username and password in
the credentials with no HMAC key and sets the currency to the default
"EUR"; `NewWithHMAC` does the same and additionally stores the HMAC
signing key. -/
theorem new_fields (env : environment) (username password hmac : String) :
    (New env username password).Credentials.Env = env
    ∧ (New env username password).Credentials.Username = username
    ∧ (New env username password).Credentials.Password = password
    ∧ (New env username password).Credentials.Hmac = none
    ∧ (New env username password).Currency = DefaultCurrency
    ∧ (NewWithHMAC env username password hmac).Credentials.Env = env
    ∧ (NewWithHMAC env username password hmac).Credentials.Username = username
    ∧ (NewWithHMAC env username password hmac).Credentials.Password = password
    ∧ (NewWithHMAC env username password hmac).Credentials.Hmac = some hmac
    ∧ (NewWithHMAC env username password hmac).Currency = DefaultCurrency
    ∧ DefaultCurrency = "EUR" :=
  ⟨rfl, rfl, rfl, rfl, rfl, rfl, rfl, rfl, rfl, rfl, rfl⟩

/-- Claim C6: the backend request URL built by `adyenURL` is the
environment's base URL for the service at API version "v25", followed by
"/", the request type, and a trailing "/". -/
theorem adyenURL_shape (a : Adyen) (service requestType : String) :
    a.adyenURL service requestType
      = a.Credentials.Env.baseURL service "v25" ++ "/" ++ requestType ++ "/"
    ∧ APIVersion = "v25" :=
  ⟨rfl, rfl⟩

/-- Claim C8: credentials are immutable after construction — every exported
state-updating operation (`SetCurrency`, `SetMerchantAccount`,
`AttachLogger`) leaves the `Credentials` field exactly as it was; the
remaining exported operations (`GetCurrency`, `GetMerchantAccount`,
`execute`, `executeHpp`) are embedded as read-only functions of the client
because the Go source never assigns to any receiver field in them. -/
theorem credentials_immutable (a : Adyen) (c m : String) (lg : Option Unit) :
    (a.SetCurrency c).Credentials = a.Credentials
    ∧ (a.SetMerchantAccount m).Credentials = a.Credentials
    ∧ (a.AttachLogger lg).Credentials = a.Credentials :=
  ⟨rfl, rfl, rfl⟩

/-- Claim C2: `execute` sends an HTTP POST whose body is the JSON
serialization of the request entity (the outcome of the `json.Marshal`
oracle) with a basic-auth header from the stored credentials; `executeHpp`
sends an HTTP GET whose parameters are query-string-encoded into the URL
with no authentication.  The describing-transport equations show that the
transport is invoked exactly on `executeRequest` / `hppRequest`. -/
theorem request_shape (a : Adyen) (service method body : String) (v : UrlValues) :
    (a.executeRequest service method body).Method = "POST"
    ∧ (a.executeRequest service method body).Body = some body
    ∧ (a.executeRequest service method body).URL = a.adyenURL service method
    ∧ (a.executeRequest service method body).ContentType = some "application/json"
    ∧ (a.executeRequest service method body).BasicAuth
        = some (a.Credentials.Username, a.Credentials.Password)
    ∧ a.execute service method (.ok body) none (fun r => .error r.describe)
        = .error (a.executeRequest service method body).describe
    ∧ (a.hppRequest method v).Method = "GET"
    ∧ (a.hppRequest method v).URL = a.createHPPUrl method ++ "?" ++ v.encode
    ∧ (a.hppRequest method v).Body = none
    ∧ (a.hppRequest method v).ContentType = none
    ∧ (a.hppRequest method v).BasicAuth = none
    ∧ a.executeHpp method (v, none) none (fun r => .error r.describe)
        = .error (a.hppRequest method v).describe :=
  ⟨rfl, rfl, rfl, rfl, rfl, rfl, rfl, rfl, rfl, rfl, rfl, rfl⟩

/-- Modelled from the spec: the client version with functional options and
a request-timeout field is not under src/ (only its test,
`TestNewWithTimeout` in the test file, is); the spec lists the request
timeout among the stored configuration options of the client.  The Go
`time.Duration` is an integer nanosecond count. -/
structure AdyenWithOptions where
  Credentials : apiCredentials
  Currency : String
  MerchantAccount : String
  ClientTimeout : Int
  Logger : Option Unit

/-- Modelled from the spec: the `WithTimeout` functional option stores the
given timeout in the client's `ClientTimeout` field. -/
def WithTimeout (timeout : Int) : AdyenWithOptions → AdyenWithOptions :=
  fun a => { a with ClientTimeout := timeout }

/-- Modelled from the spec: the variadic constructor builds the client from
credentials, default currency and logger, then applies the given options in
order. -/
def NewWithOptions (env : environment) (username password : String)
    (logger : Option Unit) (opts : List (AdyenWithOptions → AdyenWithOptions)) :
    AdyenWithOptions :=
  List.foldl (fun a f => f a)
    { Credentials := newCredentials env username password
      Currency := DefaultCurrency
      MerchantAccount := ""
      ClientTimeout := 0
      Logger := logger } opts

/-- Claim C4: the request timeout is a configuration option of the client —
applying `WithTimeout` stores the supplied value in the client's
`ClientTimeout` field, and constructing a client with that option yields a
client whose `ClientTimeout` equals the value supplied at configuration
time. -/
theorem timeout_roundtrip (env : environment) (username password : String)
    (logger : Option Unit) (timeout : Int) (a : AdyenWithOptions) :
    (WithTimeout timeout a).ClientTimeout = timeout
    ∧ (NewWithOptions env username password logger [WithTimeout timeout]).ClientTimeout
        = timeout :=
  ⟨rfl, rfl⟩

/-- Claim C7: the stored default currency and merchant account are not
injected into requests — two clients with the same credentials (in
particular, two clients differing only in `Currency` and
`MerchantAccount`) build identical backend requests, identical HPP
requests and produce identical results on both execution paths. -/
theorem config_not_injected (a₁ a₂ : Adyen) (h : a₁.Credentials = a₂.Credentials)
    (service method body : String) (v : UrlValues) :
    a₁.executeRequest service method body = a₂.executeRequest service method body
    ∧ a₁.hppRequest method v = a₂.hppRequest method v
    ∧ (∀ marshal newRequestErr transport,
        a₁.execute service method marshal newRequestErr transport
          = a₂.execute service method marshal newRequestErr transport)
    ∧ (∀ queryValues newRequestErr transport,
        a₁.executeHpp method queryValues newRequestErr transport
          = a₂.executeHpp method queryValues newRequestErr transport) := by
  obtain ⟨c₁, cur₁, ma₁, lg₁⟩ := a₁
  obtain ⟨c₂, cur₂, ma₂, lg₂⟩ := a₂
  cases h
  exact ⟨rfl, rfl, fun _ _ _ => rfl, fun _ _ _ => rfl⟩

/-- Witness for C7: two concrete clients that differ only in currency and
merchant account build byte-for-byte identical backend POST requests. -/
theorem config_not_injected_witness :
    (testAdyen.SetCurrency "USD").executeRequest "Payment" "authorise" "jsonbody"
      = (testAdyen.SetMerchantAccount "MERCH").executeRequest "Payment" "authorise" "jsonbody" :=
  (config_not_injected (testAdyen.SetCurrency "USD")
    (testAdyen.SetMerchantAccount "MERCH") rfl "Payment" "authorise" "jsonbody" none).1

/-- Claim C9: `execute` returns a response exactly when it returns no
error (the Go `(*Response, error)` pair is embedded as `Except`, whose two
constructors are mutually exclusive); each error it returns is the
underlying failure itself — the error value of the first failing stage
(marshalling, request construction, transport, body read, or HTTP-status
classification) unchanged; and the transport is consulted only on the
single built request, so no retry is attempted. -/
theorem execute_error_passthrough (a : Adyen) (service method : String) :
    (∀ e newRequestErr transport,
        a.execute service method (.error e) newRequestErr transport = .error e)
    ∧ (∀ body e transport,
        a.execute service method (.ok body) (some e) transport = .error e)
    ∧ (∀ body transport e,
        transport (a.executeRequest service method body) = .error e →
        a.execute service method (.ok body) none transport = .error e)
    ∧ (∀ body transport st e,
        transport (a.executeRequest service method body)
            = .ok { StatusCode := st, BodyRead := .error e } →
        a.execute service method (.ok body) none transport = .error e)
    ∧ (∀ body transport st buf,
        transport (a.executeRequest service method body)
            = .ok { StatusCode := st, BodyRead := .ok buf } →
        a.execute service method (.ok body) none transport
          = match (Response.mk st buf).handleHTTPError with
            | some e => .error e
            | none => .ok (Response.mk st buf))
    ∧ (∀ body transport₁ transport₂,
        transport₁ (a.executeRequest service method body)
            = transport₂ (a.executeRequest service method body) →
        a.execute service method (.ok body) none transport₁
          = a.execute service method (.ok body) none transport₂) := by
  refine ⟨fun _ _ _ => rfl, fun _ _ _ => rfl, ?_, ?_, ?_, ?_⟩
  · intro body transport e h
    simp only [Adyen.execute, h]
  · intro body transport st e h
    simp only [Adyen.execute, h]
  · intro body transport st buf h
    simp only [Adyen.execute, h]
  · intro body t₁ t₂ h
    simp only [Adyen.execute, h]

/-- Witness for C9: a transport failure and a marshalling failure are each
returned verbatim by a concrete `execute` call. -/
theorem execute_error_passthrough_witness :
    testAdyen.execute "Payment" "authorise" (.error "json: marshal failed") none
        (fun _ => .error "unreachable") = .error "json: marshal failed"
    ∧ testAdyen.execute "Payment" "authorise" (.ok "jsonbody") none
        (fun _ => .error "dial tcp: connection refused")
        = .error "dial tcp: connection refused" :=
  ⟨(execute_error_passthrough testAdyen "Payment" "authorise").1
      "json: marshal failed" none (fun _ => .error "unreachable"),
    (execute_error_passthrough testAdyen "Payment" "authorise").2.2.1
      "jsonbody" (fun _ => .error "dial tcp: connection refused")
      "dial tcp: connection refused" rfl⟩

/-- Claim C10: `executeHpp` never returns an error caused by encoding the
request entity into query parameters — the error component of
`query.Values` is discarded, and an entity the library rejects (returning
the nil values map) still results in a GET request to the HPP URL with an
empty query string rather than an error return. -/
theorem hpp_encoding_error_discarded (a : Adyen) (method : String) (v : UrlValues)
    (e : GoError) (newRequestErr : Option GoError)
    (transport : HttpRequest → Except GoError HttpResult) :
    a.executeHpp method (v, some e) newRequestErr transport
      = a.executeHpp method (v, none) newRequestErr transport
    ∧ UrlValues.encode none = ""
    ∧ (a.hppRequest method none).URL = a.createHPPUrl method ++ "?"
    ∧ (a.hppRequest method none).Method = "GET"
    ∧ a.executeHpp method (none, some e) none (fun r => .error r.describe)
        = .error (a.hppRequest method none).describe :=
  ⟨rfl, rfl, by simp [Adyen.hppRequest, UrlValues.encode, String.append_empty], rfl, rfl⟩

/-- Counterexample to claim C1 as stated: a concrete `executeHpp` call whose
HTTP response has the non-2xx status 500 returns a success response with a
nil error, not an error value. -/
theorem hpp_non2xx_returns_success :
    testAdyen.executeHpp "directory" (some [], none) none
        (fun _ => .ok { StatusCode := 500, BodyRead := .ok "Internal Server Error" })
      = .ok { StatusCode := 500, Body := "Internal Server Error" }
    ∧ (500 < 200 ∨ 300 ≤ 500) :=
  ⟨rfl, by decide⟩

/-- Claim C1 (amended): on the authenticated backend path, `execute`
returns an error value whenever the HTTP response status is non-2xx; the
hosted-payment-page path `executeHpp` performs no status classification
and returns the wrapped response with a nil error whatever the status
code. -/
theorem non2xx_classification (a : Adyen) (service method body buf : String)
    (st : Nat) (h : st < 200 ∨ 300 ≤ st) (v : UrlValues)
    (transport : HttpRequest → Except GoError HttpResult) :
    (transport (a.executeRequest service method body)
        = .ok { StatusCode := st, BodyRead := .ok buf } →
      ∃ e, a.execute service method (.ok body) none transport = .error e)
    ∧ (∀ tr, tr (a.hppRequest method v)
        = .ok { StatusCode := st, BodyRead := .ok buf } →
      a.executeHpp method (v, none) none tr = .ok { StatusCode := st, Body := buf }) := by
  constructor
  · intro h₁
    refine ⟨"HTTP Response Error - " ++ toString st, ?_⟩
    simp only [Adyen.execute, h₁, Response.handleHTTPError]
    rw [if_pos h]
  · intro tr h₂
    simp only [Adyen.executeHpp, h₂]

/-- Witness for the amended C1: with a concrete 422 response, the backend
path returns an error and the HPP path returns a success response. -/
theorem non2xx_classification_witness :
    (∃ e, testAdyen.execute "Payment" "authorise" (.ok "jsonbody") none
        (fun _ => .ok { StatusCode := 422, BodyRead := .ok "fault" }) = .error e)
    ∧ testAdyen.executeHpp "directory" (some [], none) none
        (fun _ => .ok { StatusCode := 422, BodyRead := .ok "fault" })
      = .ok { StatusCode := 422, Body := "fault" } :=
  ⟨(non2xx_classification testAdyen "Payment" "authorise" "jsonbody" "fault" 422
      (by decide) (some [])
      (fun _ => .ok { StatusCode := 422, BodyRead := .ok "fault" })).1 rfl,
   (non2xx_classification testAdyen "Payment" "directory" "jsonbody" "fault" 422
      (by decide) (some [])
      (fun _ => .ok { StatusCode := 422, BodyRead := .ok "fault" })).2
      (fun _ => .ok { StatusCode := 422, BodyRead := .ok "fault" }) rfl⟩
